import Mathlib

/-!
Verification development for the chaco plotting toolkit sources:
the BetterZoom tool (chaco/tools/better_zoom.py), the DataRange2D class
(enthought/chaco2/data_range_2d.py) and the draw_arrow helper
(enthought/chaco2/data_label.py).

Machine floats are modelled by exact rationals, except for draw_arrow
whose claim is explicitly about exact real arithmetic (it divides by a
Euclidean norm, hence square roots) and is modelled over the reals.
-/

/-- Orientation of a plot component: value of component.orientation. -/
inductive PlotOrientation where
  | h
  | v
deriving DecidableEq, Repr

/-- Value of the BetterZoom.axis trait: Enum("both", "index", "value"). -/
inductive AxisMode where
  | both
  | index
  | value
deriving DecidableEq, Repr

/-- The xy_axis argument of BetterZoom._zoom_limit_reached. -/
inductive ScreenAxis where
  | x
  | y
deriving DecidableEq, Repr

/-- The low/high bounds held by a mapper's range (mapper.range.low / .high). -/
structure RangeBounds where
  low : ℚ
  high : ℚ
deriving DecidableEq, Repr

/-- Modelled from the spec: the mapper classes are not under src/.  A mapper
translates between data space and screen space given a range and screen
bounds (spec glossary), so it carries its range and a screen interval. -/
structure Mapper where
  range : RangeBounds
  screen_low : ℚ
  screen_high : ℚ
deriving DecidableEq, Repr

/-- The plot component seen by BetterZoom: an orientation, an index mapper,
a value mapper and pixel bounds (width, height).  The GridMapper branch of
_get_x_mapper/_get_y_mapper selects sub-mappers by the same orientation
rule, so the scalar mapper pair models both branches. -/
structure PlotComponent where
  orientation : PlotOrientation
  index_mapper : Mapper
  value_mapper : Mapper
  bounds : ℚ × ℚ
deriving DecidableEq, Repr

/-- Modelled from the spec: tool_states.py is not under src/.  The two
primitive reversible interaction states used by BetterZoom: a ZoomState
carries the previous and next (index, value) zoom factor pairs; a PanState
carries the previous and next data-space positions. -/
inductive SimpleState where
  | zoomState (prev next : ℚ × ℚ)
  | panState (prev next : ℚ × ℚ)
deriving DecidableEq, Repr

/-- Modelled from the spec: tool_states.py is not under src/.  A history
entry is either a single state or a GroupedToolState of simple states
(BetterZoom only ever groups a pan with a zoom). -/
inductive ToolState where
  | simple (s : SimpleState)
  | grouped (states : List SimpleState)
deriving DecidableEq, Repr

/-- The default history entry, line 60 of better_zoom.py:
ZoomState((1.0, 1.0), (1.0, 1.0)). -/
def initial_zoom_state : ToolState :=
  ToolState.simple (SimpleState.zoomState (1, 1) (1, 1))

/-- The state of a BetterZoom tool: its component, the traits of the class
and the history stack inherited from ToolHistoryMixin. -/
structure Tool where
  component : PlotComponent
  enable_wheel : Bool
  zoom_to_mouse : Bool
  axis : AxisMode
  x_max_zoom_factor : ℚ
  y_max_zoom_factor : ℚ
  x_min_zoom_factor : ℚ
  y_min_zoom_factor : ℚ
  zoom_factor : ℚ
  _index_factor : ℚ
  _value_factor : ℚ
  position : ℚ × ℚ
  _history : List ToolState
  _history_index : Nat
deriving DecidableEq, Repr

/-- A mouse wheel event as read by BetterZoom.normal_mouse_wheel. -/
structure MouseWheelEvent where
  mouse_wheel : ℚ
  handled : Bool
deriving DecidableEq, Repr

namespace BetterZoom

/-- better_zoom.py lines 399-411: returns True if the new factor exceeds the
zoom limits of the given screen axis. -/
def _zoom_limit_reached (t : Tool) (factor : ℚ) (xy_axis : ScreenAxis) : Bool :=
  match xy_axis with
  | ScreenAxis.x =>
      if factor ≤ t.x_max_zoom_factor ∧ factor ≥ t.x_min_zoom_factor then false else true
  | ScreenAxis.y =>
      if factor ≤ t.y_max_zoom_factor ∧ factor ≥ t.y_min_zoom_factor then false else true

/-- better_zoom.py lines 413-423: shrink the mapper's range about its center
by the given factor. -/
def _zoom_in_mapper (m : Mapper) (factor : ℚ) : Mapper :=
  let high := m.range.high
  let low := m.range.low
  let w := high - low
  let center := (low + high) / 2
  let new_range := w / factor
  { m with range := { low := center - new_range / 2, high := center + new_range / 2 } }

/-- better_zoom.py lines 425-433 (scalar-mapper branch): the mapper of the x
screen axis. -/
def _get_x_mapper (t : Tool) : Mapper :=
  if t.component.orientation = PlotOrientation.h then t.component.index_mapper
  else t.component.value_mapper

/-- better_zoom.py lines 435-443 (scalar-mapper branch): the mapper of the y
screen axis. -/
def _get_y_mapper (t : Tool) : Mapper :=
  if t.component.orientation = PlotOrientation.h then t.component.value_mapper
  else t.component.index_mapper

/-- Modelled from the spec: the linear mapper classes are not under src/.
Linear screen-to-data translation given the range and the screen bounds. -/
def map_data (m : Mapper) (screen : ℚ) : ℚ :=
  m.range.low + (screen - m.screen_low) / (m.screen_high - m.screen_low)
    * (m.range.high - m.range.low)

/-- Shift a mapper's range by a data-space offset (used by pan states). -/
def shift_mapper (m : Mapper) (d : ℚ) : Mapper :=
  { m with range := { low := m.range.low + d, high := m.range.high + d } }

/-- Modelled from the spec: tool_states.py is not under src/.  Applying a
state: a ZoomState zooms the index and value mappers by the ratio of the
next to the previous factors (using BetterZoom._zoom_in_mapper, as the
src code's helper exists for this purpose) and installs the next factors;
a PanState shifts the x and y screen-axis mappers from the previous to the
next data position. -/
def applySimple (t : Tool) (s : SimpleState) : Tool :=
  match s with
  | SimpleState.zoomState p n =>
      { t with
          component := { t.component with
            index_mapper := _zoom_in_mapper t.component.index_mapper (n.1 / p.1),
            value_mapper := _zoom_in_mapper t.component.value_mapper (n.2 / p.2) },
          _index_factor := n.1,
          _value_factor := n.2 }
  | SimpleState.panState p n =>
      let dx := n.1 - p.1
      let dy := n.2 - p.2
      { t with component :=
          if t.component.orientation = PlotOrientation.h then
            { t.component with
                index_mapper := shift_mapper t.component.index_mapper dx,
                value_mapper := shift_mapper t.component.value_mapper dy }
          else
            { t.component with
                index_mapper := shift_mapper t.component.index_mapper dy,
                value_mapper := shift_mapper t.component.value_mapper dx } }

/-- Modelled from the spec: tool_states.py is not under src/.  Reverting a
state is the exact inverse of applying it. -/
def revertSimple (t : Tool) (s : SimpleState) : Tool :=
  match s with
  | SimpleState.zoomState p n =>
      { t with
          component := { t.component with
            index_mapper := _zoom_in_mapper t.component.index_mapper (p.1 / n.1),
            value_mapper := _zoom_in_mapper t.component.value_mapper (p.2 / n.2) },
          _index_factor := p.1,
          _value_factor := p.2 }
  | SimpleState.panState p n =>
      let dx := p.1 - n.1
      let dy := p.2 - n.2
      { t with component :=
          if t.component.orientation = PlotOrientation.h then
            { t.component with
                index_mapper := shift_mapper t.component.index_mapper dx,
                value_mapper := shift_mapper t.component.value_mapper dy }
          else
            { t.component with
                index_mapper := shift_mapper t.component.index_mapper dy,
                value_mapper := shift_mapper t.component.value_mapper dx } }

/-- Modelled from the spec: tool_states.py is not under src/.  Applying a
ToolState: a GroupedToolState applies its members in order. -/
def applyState (t : Tool) (s : ToolState) : Tool :=
  match s with
  | ToolState.simple s => applySimple t s
  | ToolState.grouped l => l.foldl applySimple t

/-- Modelled from the spec: tool_states.py is not under src/.  Reverting a
ToolState: a GroupedToolState reverts its members in reverse order. -/
def revertState (t : Tool) (s : ToolState) : Tool :=
  match s with
  | ToolState.simple s => revertSimple t s
  | ToolState.grouped l => l.reverse.foldl revertSimple t

/-- Modelled from the spec: tool_history_mixin.py is not under src/.  The
history stack with forward/back navigation: appending a state truncates
any forward states and points the index at the new last entry. -/
def _append_state (t : Tool) (s : ToolState) : Tool :=
  let h := t._history.take (t._history_index + 1) ++ [s]
  { t with _history := h, _history_index := h.length - 1 }

/-- Modelled from the spec: tool_history_mixin.py is not under src/.  The
state the history index currently points at. -/
def _current_state (t : Tool) : ToolState :=
  t._history.getD t._history_index initial_zoom_state

/-- better_zoom.py lines 449-457: advance to the next state in the stack.
The history index has already been moved to the next state. -/
def _next_state_pressed (t : Tool) : Tool :=
  applyState t (_current_state t)

/-- better_zoom.py lines 459-466: go back to the previous state in the
stack.  The history index has already been moved back, so the state being
left is at index + 1 and is reverted. -/
def _prev_state_pressed (t : Tool) : Tool :=
  revertState t (t._history.getD (t._history_index + 1) initial_zoom_state)

/-- Modelled from the spec: tool_history_mixin.py is not under src/.  The
previous-state action: if the history index can move back, move it back
and invoke the tool's _prev_state_pressed callback. -/
def _prev_state (t : Tool) : Tool :=
  if 0 < t._history_index then
    _prev_state_pressed { t with _history_index := t._history_index - 1 }
  else t

/-- Modelled from the spec: tool_history_mixin.py is not under src/.  The
next-state action: if the history index can move forward, move it forward
and invoke the tool's _next_state_pressed callback. -/
def _next_state (t : Tool) : Tool :=
  if t._history_index + 1 < t._history.length then
    _next_state_pressed { t with _history_index := t._history_index + 1 }
  else t

/-- The common tail of the six zoom methods of better_zoom.py (e.g. lines
89-114 of zoom_in): build the ZoomState from the current and new factors
(grouped with a PanState toward the mouse position when zoom_to_mouse is
set), apply it and append it to the history. -/
def _do_zoom (t : Tool) (new_index_factor new_value_factor : ℚ) : Tool :=
  if t.zoom_to_mouse then
    let x_map := _get_x_mapper t
    let y_map := _get_y_mapper t
    let next := (map_data x_map t.position.1, map_data y_map t.position.2)
    let prev := (map_data x_map (t.component.bounds.1 / 2),
                 map_data y_map (t.component.bounds.2 / 2))
    let states := ToolState.grouped
      [SimpleState.panState prev next,
       SimpleState.zoomState (t._index_factor, t._value_factor)
         (new_index_factor, new_value_factor)]
    _append_state (applyState t states) states
  else
    let zs := ToolState.simple
      (SimpleState.zoomState (t._index_factor, t._value_factor)
        (new_index_factor, new_value_factor))
    _append_state (applyState t zs) zs

/-- better_zoom.py lines 66-114. -/
def zoom_in (t : Tool) (factor : ℚ) : Tool :=
  let factor := if factor = 0 then t.zoom_factor else factor
  let new_index_factor :=
    if t.axis = AxisMode.value then t._index_factor else t._index_factor * factor
  let new_value_factor :=
    if t.axis = AxisMode.index then t._value_factor else t._value_factor * factor
  if t.component.orientation = PlotOrientation.h then
    if _zoom_limit_reached t new_index_factor ScreenAxis.x then t
    else if _zoom_limit_reached t new_value_factor ScreenAxis.y then t
    else _do_zoom t new_index_factor new_value_factor
  else
    if _zoom_limit_reached t new_index_factor ScreenAxis.y then t
    else if _zoom_limit_reached t new_value_factor ScreenAxis.x then t
    else _do_zoom t new_index_factor new_value_factor

/-- better_zoom.py lines 116-164. -/
def zoom_out (t : Tool) (factor : ℚ) : Tool :=
  let factor := if factor = 0 then t.zoom_factor else factor
  let new_index_factor :=
    if t.axis = AxisMode.value then t._index_factor else t._index_factor / factor
  let new_value_factor :=
    if t.axis = AxisMode.index then t._value_factor else t._value_factor / factor
  if t.component.orientation = PlotOrientation.h then
    if _zoom_limit_reached t new_index_factor ScreenAxis.x then t
    else if _zoom_limit_reached t new_value_factor ScreenAxis.y then t
    else _do_zoom t new_index_factor new_value_factor
  else
    if _zoom_limit_reached t new_index_factor ScreenAxis.y then t
    else if _zoom_limit_reached t new_value_factor ScreenAxis.x then t
    else _do_zoom t new_index_factor new_value_factor

/-- better_zoom.py lines 166-206. -/
def zoom_in_x (t : Tool) (factor : ℚ) : Tool :=
  let factor := if factor = 0 then t.zoom_factor else factor
  if t.component.orientation = PlotOrientation.h then
    let new_index_factor := t._index_factor * factor
    let new_value_factor := t._value_factor
    if _zoom_limit_reached t new_index_factor ScreenAxis.x then t
    else _do_zoom t new_index_factor new_value_factor
  else
    let new_index_factor := t._index_factor
    let new_value_factor := t._value_factor * factor
    if _zoom_limit_reached t new_value_factor ScreenAxis.x then t
    else _do_zoom t new_index_factor new_value_factor

/-- better_zoom.py lines 208-248. -/
def zoom_out_x (t : Tool) (factor : ℚ) : Tool :=
  let factor := if factor = 0 then t.zoom_factor else factor
  if t.component.orientation = PlotOrientation.h then
    let new_index_factor := t._index_factor / factor
    let new_value_factor := t._value_factor
    if _zoom_limit_reached t new_index_factor ScreenAxis.x then t
    else _do_zoom t new_index_factor new_value_factor
  else
    let new_index_factor := t._index_factor
    let new_value_factor := t._value_factor / factor
    if _zoom_limit_reached t new_value_factor ScreenAxis.x then t
    else _do_zoom t new_index_factor new_value_factor

/-- better_zoom.py lines 250-290. -/
def zoom_in_y (t : Tool) (factor : ℚ) : Tool :=
  let factor := if factor = 0 then t.zoom_factor else factor
  if t.component.orientation = PlotOrientation.v then
    let new_index_factor := t._index_factor * factor
    let new_value_factor := t._value_factor
    if _zoom_limit_reached t new_index_factor ScreenAxis.y then t
    else _do_zoom t new_index_factor new_value_factor
  else
    let new_index_factor := t._index_factor
    let new_value_factor := t._value_factor * factor
    if _zoom_limit_reached t new_value_factor ScreenAxis.y then t
    else _do_zoom t new_index_factor new_value_factor

/-- better_zoom.py lines 292-332. -/
def zoom_out_y (t : Tool) (factor : ℚ) : Tool :=
  let factor := if factor = 0 then t.zoom_factor else factor
  if t.component.orientation = PlotOrientation.v then
    let new_index_factor := t._index_factor / factor
    let new_value_factor := t._value_factor
    if _zoom_limit_reached t new_index_factor ScreenAxis.y then t
    else _do_zoom t new_index_factor new_value_factor
  else
    let new_index_factor := t._index_factor
    let new_value_factor := t._value_factor / factor
    if _zoom_limit_reached t new_value_factor ScreenAxis.y then t
    else _do_zoom t new_index_factor new_value_factor

/-- better_zoom.py lines 371-380: the mouse wheel handler.  Calling
zoom_in/zoom_out with no argument is calling them with factor 0 (their
default), which makes them use the zoom_factor trait. -/
def normal_mouse_wheel (t : Tool) (e : MouseWheelEvent) : Tool × MouseWheelEvent :=
  if ¬ t.enable_wheel then (t, e)
  else if e.mouse_wheel ≠ 0 then
    (if e.mouse_wheel > 0 then zoom_in t 0 else zoom_out t 0,
     { e with handled := true })
  else (t, e)

end BetterZoom

/-- A bound setting of a 1-D data range: either the string "auto" or a
user-set numeric value. -/
inductive Setting where
  | auto
  | val (v : ℚ)
deriving DecidableEq, Repr

/-- Python exceptions raised by the data-range code. -/
inductive PyErr where
  | nameError
  | notImplementedError
deriving DecidableEq, Repr

/-- Modelled from the spec: data_range_1d.py is not under src/.  A 1-D data
range: a user- or auto-computed lower/upper bound pair over a data
dimension, with the list of 1-D data sources feeding the auto bounds. -/
structure DataRange1D where
  low_setting : Setting
  high_setting : Setting
  low : ℚ
  high : ℚ
  sources : List (List ℚ)
deriving DecidableEq, Repr

namespace DataRange1D

/-- Modelled from the spec: data_range_1d.py is not under src/.  If any of
the bounds is "auto", refresh recomputes the actual low and high values
from the data sources; user-set bounds are left alone.  (With no data at
all the real code falls back to infinite bounds, which the rational model
renders as leaving the bounds unchanged.) -/
def refresh (r : DataRange1D) : DataRange1D :=
  if r.low_setting ≠ Setting.auto ∧ r.high_setting ≠ Setting.auto then r
  else
    match r.sources.flatten with
    | [] => r
    | d :: ds =>
        { r with
            low := if r.low_setting = Setting.auto then ds.foldl min d else r.low,
            high := if r.high_setting = Setting.auto then ds.foldl max d else r.high }

/-- Modelled from the spec: data_range_1d.py is not under src/.  Add a 1-D
data source to the range. -/
def add (r : DataRange1D) (d : List ℚ) : DataRange1D :=
  { r with sources := r.sources ++ [d] }

/-- Modelled from the spec: data_range_1d.py is not under src/.  Remove a
1-D data source from the range. -/
def remove (r : DataRange1D) (d : List ℚ) : DataRange1D :=
  { r with sources := r.sources.erase d }

/-- Modelled from the spec: data_range_1d.py is not under src/.  Setting
the low bound: a numeric setting becomes the actual low value; setting it
to "auto" recomputes from the sources. -/
def set_low_setting (r : DataRange1D) (s : Setting) : DataRange1D :=
  match s with
  | Setting.val q => { r with low_setting := s, low := q }
  | Setting.auto => refresh { r with low_setting := Setting.auto }

/-- Modelled from the spec: data_range_1d.py is not under src/.  Setting
the high bound, symmetric to set_low_setting. -/
def set_high_setting (r : DataRange1D) (s : Setting) : DataRange1D :=
  match s with
  | Setting.val q => { r with high_setting := s, high := q }
  | Setting.auto => refresh { r with high_setting := Setting.auto }

end DataRange1D

/-- An ImageData-like data source as seen by DataRange2D: it carries the
underlying 1-D data arrays _xdata and _ydata. -/
structure ImageSource where
  _xdata : List ℚ
  _ydata : List ℚ
deriving DecidableEq, Repr

/-- The state of a DataRange2D (data_range_2d.py): the shadow low/high
setting traits, the two 1-D ranges it is implemented with, its list of
data sources and the set of sources whose data_changed event it listens
to (on_trait_change wiring modelled as a list of listened-to sources). -/
structure DataRange2D where
  _low_setting : Setting × Setting
  _high_setting : Setting × Setting
  _xrange : DataRange1D
  _yrange : DataRange1D
  sources : List ImageSource
  listeners : List ImageSource
deriving DecidableEq, Repr

/-- A traits list-items event: the items removed from and added to a
list trait. -/
structure ListEvent where
  removed : List ImageSource
  added : List ImageSource
deriving DecidableEq, Repr

/-- numpy.compress on a boolean condition list: keep the entries whose
condition is true, in order. -/
def compress {α : Type} : List Bool → List α → List α
  | b :: bs, x :: xs => if b then x :: compress bs xs else compress bs xs
  | _, _ => []

namespace DataRange2D

/-- data_range_2d.py lines 167-168: the actual (x, y) lower bound, read
from the two 1-D ranges. -/
def low (r : DataRange2D) : ℚ × ℚ := (r._xrange.low, r._yrange.low)

/-- data_range_2d.py lines 183-184: the actual (x, y) upper bound. -/
def high (r : DataRange2D) : ℚ × ℚ := (r._xrange.high, r._yrange.high)

/-- data_range_2d.py lines 173-174: the low_setting property getter. -/
def low_setting (r : DataRange2D) : Setting × Setting :=
  (r._xrange.low_setting, r._yrange.low_setting)

/-- data_range_2d.py lines 189-190: the high_setting property getter. -/
def high_setting (r : DataRange2D) : Setting × Setting :=
  (r._xrange.high_setting, r._yrange.high_setting)

/-- data_range_2d.py lines 179-181: set the low settings of the two 1-D
ranges.  Note that the shadow trait _low_setting is NOT updated. -/
def _do_set_low_setting (r : DataRange2D) (v : Setting × Setting) : DataRange2D :=
  { r with
      _xrange := r._xrange.set_low_setting v.1,
      _yrange := r._yrange.set_low_setting v.2 }

/-- data_range_2d.py lines 154-156: set the high settings of the two 1-D
ranges.  Note that the shadow trait _high_setting is NOT updated. -/
def _do_set_high_setting (r : DataRange2D) (v : Setting × Setting) : DataRange2D :=
  { r with
      _xrange := r._xrange.set_high_setting v.1,
      _yrange := r._yrange.set_high_setting v.2 }

/-- data_range_2d.py lines 105-118: set all bounds simultaneously (numeric
corners). -/
def set_bounds (r : DataRange2D) (lo hi : ℚ × ℚ) : DataRange2D :=
  _do_set_high_setting
    (_do_set_low_setting r (Setting.val lo.1, Setting.val lo.2))
    (Setting.val hi.1, Setting.val hi.2)

/-- data_range_2d.py lines 158-160: refresh both 1-D ranges. -/
def _refresh_bounds (r : DataRange2D) : DataRange2D :=
  { r with _xrange := r._xrange.refresh, _yrange := r._yrange.refresh }

/-- Python: 'auto' in pair, for the 2-tuple shadow setting traits. -/
def hasAuto (p : Setting × Setting) : Bool :=
  p.1 = Setting.auto ∨ p.2 = Setting.auto

/-- data_range_2d.py lines 136-146: refresh does nothing when neither
shadow setting tuple contains "auto"; otherwise it refreshes the bounds. -/
def refresh (r : DataRange2D) : DataRange2D :=
  if ¬ hasAuto r._low_setting ∧ ¬ hasAuto r._high_setting then r
  else _refresh_bounds r

/-- data_range_2d.py lines 89-98: the boolean mask of the points lying
inside the rectangle [low.1, high.1] × [low.2, high.2]. -/
def mask_data (r : DataRange2D) (data : List (ℚ × ℚ)) : List Bool :=
  data.map (fun p =>
    (decide (p.1 ≥ (low r).1) && decide (p.1 ≤ (high r).1)) &&
    (decide (p.2 ≥ (low r).2) && decide (p.2 ≤ (high r).2)))

/-- data_range_2d.py lines 82-87: the data values within the range, via
numpy.compress on the mask. -/
def clip_data (r : DataRange2D) (data : List (ℚ × ℚ)) : List (ℚ × ℚ) :=
  compress (mask_data r data) data

/-- data_range_2d.py lines 100-103: bound_data always raises
NotImplementedError, leaving the range untouched. -/
def bound_data (r : DataRange2D) (data : List (ℚ × ℚ)) :
    DataRange2D × Except PyErr (List (ℚ × ℚ)) :=
  (r, Except.error PyErr.notImplementedError)

/-- data_range_2d.py lines 209-219: the loop body reads the undefined name
datanamem (a typo for dataname), so the first iteration raises NameError;
with no sources the loop body never runs and the call succeeds. -/
def _set_1d_range (sources : List ImageSource) : Except PyErr Unit :=
  match sources with
  | [] => Except.ok ()
  | _ :: _ => Except.error PyErr.nameError

/-- data_range_2d.py lines 198-200: the x_range property setter; the
NameError from _set_1d_range propagates before _xrange is replaced. -/
def _set_x_range (r : DataRange2D) (newrange : DataRange1D) :
    Except PyErr DataRange2D :=
  match _set_1d_range r.sources with
  | Except.ok _ => Except.ok { r with _xrange := newrange }
  | Except.error e => Except.error e

/-- data_range_2d.py lines 205-207: the y_range property setter. -/
def _set_y_range (r : DataRange2D) (newrange : DataRange1D) :
    Except PyErr DataRange2D :=
  match _set_1d_range r.sources with
  | Except.ok _ => Except.ok { r with _yrange := newrange }
  | Except.error e => Except.error e

/-- The per-source effect of removal in the event handlers (lines 227-230
and 238-241): detach the data_changed listener and remove _xdata/_ydata
from the 1-D ranges. -/
def removeSource (r : DataRange2D) (s : ImageSource) : DataRange2D :=
  { r with
      listeners := r.listeners.erase s,
      _xrange := r._xrange.remove s._xdata,
      _yrange := r._yrange.remove s._ydata }

/-- The per-source effect of addition in the event handlers (lines 231-234
and 242-245): attach the data_changed listener and add _xdata/_ydata to
the 1-D ranges. -/
def addSource (r : DataRange2D) (s : ImageSource) : DataRange2D :=
  { r with
      listeners := r.listeners ++ [s],
      _xrange := r._xrange.add s._xdata,
      _yrange := r._yrange.add s._ydata }

/-- data_range_2d.py lines 225-234: refresh, then process the removed and
added items of the sources list event. -/
def _sources_items_changed (r : DataRange2D) (ev : ListEvent) : DataRange2D :=
  ev.added.foldl addSource (ev.removed.foldl removeSource (refresh r))

/-- data_range_2d.py lines 236-245: refresh, then process the old and new
sources lists after wholesale replacement. -/
def _sources_changed (r : DataRange2D) (old new : List ImageSource) : DataRange2D :=
  new.foldl addSource (old.foldl removeSource (refresh r))

end DataRange2D

/-- The four points computed by draw_arrow (data_label.py lines 44-66):
the offset start and tip of the shaft and the two arrowhead base points. -/
structure ArrowShape where
  pt1 : ℝ × ℝ
  pt2 : ℝ × ℝ
  arrowhead_l : ℝ × ℝ
  arrowhead_r : ℝ × ℝ

/-- The Euclidean norm of a 2-D vector, numpy.linalg.norm. -/
noncomputable def norm2 (v : ℝ × ℝ) : ℝ := Real.sqrt (v.1 ^ 2 + v.2 ^ 2)

/-- data_label.py lines 45-49: the unit direction vector from pt1 to pt2. -/
noncomputable def unit_vec (pt1 pt2 : ℝ × ℝ) : ℝ × ℝ :=
  let d := (pt2.1 - pt1.1, pt2.2 - pt1.2)
  (d.1 / norm2 d, d.2 / norm2 d)

open Classical in
/-- data_label.py lines 51-59: the vector perpendicular to the shaft used
to spread the arrowhead, of nominal length 0.3 * arrowhead_size. -/
noncomputable def perp_vec (pt1 pt2 : ℝ × ℝ) (arrowhead_size : ℝ) : ℝ × ℝ :=
  let u := unit_vec pt1 pt2
  if u.1 = 0 then ((0.3 : ℝ) * arrowhead_size, (0 : ℝ))
  else if u.2 = 0 then ((0 : ℝ), (0.3 : ℝ) * arrowhead_size)
  else
    let slope := u.2 / u.1
    let perp_slope := -1 / slope
    let c := (0.3 : ℝ) * arrowhead_size / norm2 (1, perp_slope)
    (c * 1, c * perp_slope)

/-- data_label.py lines 44-66: the geometric part of draw_arrow when the
arrow argument is None (a fresh arrow is computed). -/
noncomputable def draw_arrow (pt1 pt2 : ℝ × ℝ) (arrowhead_size offset1 offset2 : ℝ) :
    ArrowShape :=
  let u := unit_vec pt1 pt2
  let pv := perp_vec pt1 pt2 arrowhead_size
  let p1 := (pt1.1 + offset1 * u.1, pt1.2 + offset1 * u.2)
  let p2 := (pt2.1 - offset2 * u.1, pt2.2 - offset2 * u.2)
  { pt1 := p1,
    pt2 := p2,
    arrowhead_l := (p2.1 - (arrowhead_size * u.1 + pv.1),
                    p2.2 - (arrowhead_size * u.2 + pv.2)),
    arrowhead_r := (p2.1 - (arrowhead_size * u.1 - pv.1),
                    p2.2 - (arrowhead_size * u.2 - pv.2)) }

/-- The six public zoom operations of BetterZoom. -/
inductive ZoomOp where
  | zoomIn
  | zoomOut
  | zoomInX
  | zoomOutX
  | zoomInY
  | zoomOutY
deriving DecidableEq, Repr

namespace BetterZoom

/-- Dispatch a zoom operation with a given factor argument. -/
def applyZoomOp (t : Tool) (op : ZoomOp) (f : ℚ) : Tool :=
  match op with
  | ZoomOp.zoomIn => zoom_in t f
  | ZoomOp.zoomOut => zoom_out t f
  | ZoomOp.zoomInX => zoom_in_x t f
  | ZoomOp.zoomOutX => zoom_out_x t f
  | ZoomOp.zoomInY => zoom_in_y t f
  | ZoomOp.zoomOutY => zoom_out_y t f

/-- The prospective (index, value) factor pair each operation computes
before its limit check. -/
def new_factors (t : Tool) (op : ZoomOp) (f : ℚ) : ℚ × ℚ :=
  let f := if f = 0 then t.zoom_factor else f
  match op with
  | ZoomOp.zoomIn =>
      (if t.axis = AxisMode.value then t._index_factor else t._index_factor * f,
       if t.axis = AxisMode.index then t._value_factor else t._value_factor * f)
  | ZoomOp.zoomOut =>
      (if t.axis = AxisMode.value then t._index_factor else t._index_factor / f,
       if t.axis = AxisMode.index then t._value_factor else t._value_factor / f)
  | ZoomOp.zoomInX =>
      if t.component.orientation = PlotOrientation.h then
        (t._index_factor * f, t._value_factor)
      else (t._index_factor, t._value_factor * f)
  | ZoomOp.zoomOutX =>
      if t.component.orientation = PlotOrientation.h then
        (t._index_factor / f, t._value_factor)
      else (t._index_factor, t._value_factor / f)
  | ZoomOp.zoomInY =>
      if t.component.orientation = PlotOrientation.v then
        (t._index_factor * f, t._value_factor)
      else (t._index_factor, t._value_factor * f)
  | ZoomOp.zoomOutY =>
      if t.component.orientation = PlotOrientation.v then
        (t._index_factor / f, t._value_factor)
      else (t._index_factor, t._value_factor / f)

/-- The combined guard each operation tests before zooming: zoom_in and
zoom_out check both screen axes; the single-axis operations check only
the screen axis they act on. -/
def zoomOpLimitFails (t : Tool) (op : ZoomOp) (f : ℚ) : Bool :=
  let nf := new_factors t op f
  match op with
  | ZoomOp.zoomIn | ZoomOp.zoomOut =>
      if t.component.orientation = PlotOrientation.h then
        _zoom_limit_reached t nf.1 ScreenAxis.x || _zoom_limit_reached t nf.2 ScreenAxis.y
      else
        _zoom_limit_reached t nf.1 ScreenAxis.y || _zoom_limit_reached t nf.2 ScreenAxis.x
  | ZoomOp.zoomInX | ZoomOp.zoomOutX =>
      if t.component.orientation = PlotOrientation.h then
        _zoom_limit_reached t nf.1 ScreenAxis.x
      else
        _zoom_limit_reached t nf.2 ScreenAxis.x
  | ZoomOp.zoomInY | ZoomOp.zoomOutY =>
      if t.component.orientation = PlotOrientation.h then
        _zoom_limit_reached t nf.2 ScreenAxis.y
      else
        _zoom_limit_reached t nf.1 ScreenAxis.y

/-- The factor interval of a screen axis, [min_zoom_factor, max_zoom_factor]. -/
def within_limits (t : Tool) (ax : ScreenAxis) (v : ℚ) : Prop :=
  match ax with
  | ScreenAxis.x => t.x_min_zoom_factor ≤ v ∧ v ≤ t.x_max_zoom_factor
  | ScreenAxis.y => t.y_min_zoom_factor ≤ v ∧ v ≤ t.y_max_zoom_factor

instance (t : Tool) (ax : ScreenAxis) (v : ℚ) : Decidable (within_limits t ax v) := by
  unfold within_limits
  cases ax <;> exact instDecidableAnd

/-- The screen axis the index mapper lives on. -/
def index_axis (t : Tool) : ScreenAxis :=
  if t.component.orientation = PlotOrientation.h then ScreenAxis.x else ScreenAxis.y

/-- The screen axis the value mapper lives on. -/
def value_axis (t : Tool) : ScreenAxis :=
  if t.component.orientation = PlotOrientation.h then ScreenAxis.y else ScreenAxis.x

/-- Both per-axis zoom factors lie within the limits of their screen axis. -/
def factors_in_bounds (t : Tool) : Prop :=
  within_limits t (index_axis t) t._index_factor ∧
  within_limits t (value_axis t) t._value_factor

instance (t : Tool) : Decidable (factors_in_bounds t) := by
  unfold factors_in_bounds
  exact instDecidableAnd

/-- Apply a sequence of zoom operations in order. -/
def applyZoomSeq (t : Tool) (ops : List (ZoomOp × ℚ)) : Tool :=
  ops.foldl (fun s p => applyZoomOp s p.1 p.2) t

end BetterZoom

/-- A concrete mapper on data interval [0, 10] and screen interval [0, 100]. -/
def mapper0 : Mapper :=
  { range := { low := 0, high := 10 }, screen_low := 0, screen_high := 100 }

/-- A concrete horizontal tool with default-like traits, factors 1 and the
default one-entry history: used to instantiate the zoom theorems. -/
def tool0 : Tool :=
  { component :=
      { orientation := PlotOrientation.h,
        index_mapper := mapper0,
        value_mapper := mapper0,
        bounds := (100, 100) },
    enable_wheel := true,
    zoom_to_mouse := false,
    axis := AxisMode.both,
    x_max_zoom_factor := 100000,
    y_max_zoom_factor := 100000,
    x_min_zoom_factor := 1 / 100000,
    y_min_zoom_factor := 1 / 100000,
    zoom_factor := 2,
    _index_factor := 1,
    _value_factor := 1,
    position := (25, 75),
    _history := [initial_zoom_state],
    _history_index := 0 }

/-- A tool whose value factor (10) already exceeds its y maximum zoom
factor (5): the counterexample state for the limit-check claim. -/
def toolCex : Tool :=
  { tool0 with y_max_zoom_factor := 5, _value_factor := 10 }

/-- tool0 with zoom-to-mouse enabled, to instantiate the history round
trip on the grouped pan-and-zoom path. -/
def toolMouse : Tool :=
  { tool0 with zoom_to_mouse := true }

/-- A concrete 1-D range with user-set bounds [0, 10] and no sources. -/
def drange1 : DataRange1D :=
  { low_setting := Setting.val 0,
    high_setting := Setting.val 10,
    low := 0,
    high := 10,
    sources := [] }

/-- A concrete 1-D range with auto bounds and one data source. -/
def drange1auto : DataRange1D :=
  { low_setting := Setting.auto,
    high_setting := Setting.auto,
    low := 1,
    high := 5,
    sources := [[1, 5]] }

/-- A concrete data source. -/
def src1 : ImageSource := { _xdata := [1, 2], _ydata := [3, 4] }

/-- A concrete 2-D range with user-set actual bounds and no sources. -/
def drange2 : DataRange2D :=
  { _low_setting := (Setting.auto, Setting.auto),
    _high_setting := (Setting.auto, Setting.auto),
    _xrange := drange1,
    _yrange := drange1,
    sources := [],
    listeners := [] }

/-- drange2 with one data source registered. -/
def drange2s : DataRange2D :=
  { drange2 with sources := [src1] }

/-- A fresh 2-D range with auto settings and data sources feeding the two
1-D ranges: the state before set_bounds in the refresh witness. -/
def drange2auto : DataRange2D :=
  { drange2 with _xrange := drange1auto, _yrange := drange1auto }

/-! Theorems. -/

/-- C4: _zoom_in_mapper keeps the midpoint of the range and divides its
width by the factor (exact arithmetic, nonzero factor). -/
theorem zoom_in_mapper_midpoint_and_width (m : Mapper) (f : ℚ) (hf : f ≠ 0) :
    ((BetterZoom._zoom_in_mapper m f).range.low
        + (BetterZoom._zoom_in_mapper m f).range.high) / 2
      = (m.range.low + m.range.high) / 2 ∧
    (BetterZoom._zoom_in_mapper m f).range.high
        - (BetterZoom._zoom_in_mapper m f).range.low
      = (m.range.high - m.range.low) / f := by
  unfold BetterZoom._zoom_in_mapper
  constructor <;> simp

/-- Witness for C4 at mapper0 (range [0, 10]) and factor 2. -/
theorem zoom_in_mapper_midpoint_and_width_witness :
    ((BetterZoom._zoom_in_mapper mapper0 2).range.low
        + (BetterZoom._zoom_in_mapper mapper0 2).range.high) / 2
      = (mapper0.range.low + mapper0.range.high) / 2 ∧
    (BetterZoom._zoom_in_mapper mapper0 2).range.high
        - (BetterZoom._zoom_in_mapper mapper0 2).range.low
      = (mapper0.range.high - mapper0.range.low) / 2 :=
  zoom_in_mapper_midpoint_and_width mapper0 2 (by norm_num)

/-- C9: bound_data always raises NotImplementedError and leaves the
range's state unchanged. -/
theorem bound_data_not_implemented (r : DataRange2D) (data : List (ℚ × ℚ)) :
    (DataRange2D.bound_data r data).1 = r ∧
    (DataRange2D.bound_data r data).2 = Except.error PyErr.notImplementedError :=
  ⟨rfl, rfl⟩

/-- C8: with a non-empty sources list, assigning x_range or y_range raises
NameError (the helper reads the undefined name datanamem) and the 1-D
range is not replaced; with an empty sources list the assignment succeeds
and replaces the corresponding 1-D range. -/
theorem set_range_name_error (r : DataRange2D) (nr : DataRange1D) :
    (r.sources ≠ [] →
      DataRange2D._set_x_range r nr = Except.error PyErr.nameError ∧
      DataRange2D._set_y_range r nr = Except.error PyErr.nameError) ∧
    (r.sources = [] →
      DataRange2D._set_x_range r nr = Except.ok { r with _xrange := nr } ∧
      DataRange2D._set_y_range r nr = Except.ok { r with _yrange := nr }) := by
  constructor
  · intro h
    cases hs : r.sources with
    | nil => exact absurd hs h
    | cons a l =>
        constructor <;>
          simp [DataRange2D._set_x_range, DataRange2D._set_y_range,
            DataRange2D._set_1d_range, hs]
  · intro h
    constructor <;>
      simp [DataRange2D._set_x_range, DataRange2D._set_y_range,
        DataRange2D._set_1d_range, h]

/-- Witness for C8: the setter fails on drange2s (one source) and succeeds
on drange2 (no sources). -/
theorem set_range_name_error_witness :
    (DataRange2D._set_x_range drange2s drange1 = Except.error PyErr.nameError ∧
     DataRange2D._set_y_range drange2s drange1 = Except.error PyErr.nameError) ∧
    (DataRange2D._set_x_range drange2 drange1
        = Except.ok { drange2 with _xrange := drange1 } ∧
     DataRange2D._set_y_range drange2 drange1
        = Except.ok { drange2 with _yrange := drange1 }) :=
  ⟨(set_range_name_error drange2s drange1).1 (by decide),
   (set_range_name_error drange2 drange1).2 (by decide)⟩

/-- C7: the mouse wheel handler does nothing when the wheel is disabled or
the wheel delta is zero, zooms in and marks the event handled on a
positive delta, and zooms out and marks it handled on a negative delta. -/
theorem normal_mouse_wheel_cases (t : Tool) (e : MouseWheelEvent) :
    (t.enable_wheel = false → BetterZoom.normal_mouse_wheel t e = (t, e)) ∧
    (t.enable_wheel = true → 0 < e.mouse_wheel →
      BetterZoom.normal_mouse_wheel t e
        = (BetterZoom.zoom_in t 0, { e with handled := true })) ∧
    (t.enable_wheel = true → e.mouse_wheel < 0 →
      BetterZoom.normal_mouse_wheel t e
        = (BetterZoom.zoom_out t 0, { e with handled := true })) ∧
    (e.mouse_wheel = 0 → BetterZoom.normal_mouse_wheel t e = (t, e)) := by
  refine ⟨fun hw => ?_, fun hw hpos => ?_, fun hw hneg => ?_, fun h0 => ?_⟩
  · simp [BetterZoom.normal_mouse_wheel, hw]
  · simp [BetterZoom.normal_mouse_wheel, hw, hpos, ne_of_gt hpos]
  · simp [BetterZoom.normal_mouse_wheel, hw, hneg, ne_of_lt hneg, not_lt_of_lt hneg]
  · simp [BetterZoom.normal_mouse_wheel, h0]

/-- Witness for C7: a positive wheel event on tool0 zooms in and is marked
handled. -/
theorem normal_mouse_wheel_cases_witness :
    BetterZoom.normal_mouse_wheel tool0 { mouse_wheel := 1, handled := false }
      = (BetterZoom.zoom_in tool0 0,
         { mouse_wheel := 1, handled := true : MouseWheelEvent }) :=
  (normal_mouse_wheel_cases tool0 { mouse_wheel := 1, handled := false }).2.1
    (by decide) (by norm_num)

/-- A 1-D range with both settings user-set refreshes to itself. -/
theorem DataRange1D.refresh_eq_self (r : DataRange1D)
    (h1 : r.low_setting ≠ Setting.auto) (h2 : r.high_setting ≠ Setting.auto) :
    r.refresh = r := by
  unfold DataRange1D.refresh
  rw [if_pos ⟨h1, h2⟩]

/-- C3: when the user-set settings of both dimensions contain no "auto"
component, refresh leaves the range's low and high values unchanged. -/
theorem refresh_keeps_user_bounds (r : DataRange2D)
    (hx1 : (DataRange2D.low_setting r).1 ≠ Setting.auto)
    (hx2 : (DataRange2D.high_setting r).1 ≠ Setting.auto)
    (hy1 : (DataRange2D.low_setting r).2 ≠ Setting.auto)
    (hy2 : (DataRange2D.high_setting r).2 ≠ Setting.auto) :
    DataRange2D.low (DataRange2D.refresh r) = DataRange2D.low r ∧
    DataRange2D.high (DataRange2D.refresh r) = DataRange2D.high r := by
  have hr : DataRange2D.refresh r = r := by
    unfold DataRange2D.refresh
    split
    · rfl
    · unfold DataRange2D._refresh_bounds
      rw [DataRange1D.refresh_eq_self r._xrange hx1 hx2,
          DataRange1D.refresh_eq_self r._yrange hy1 hy2]
  rw [hr]
  exact ⟨rfl, rfl⟩

/-- Witness for C3: after set_bounds with numeric corners on a range with
auto settings and live data sources, refresh leaves low and high alone. -/
theorem refresh_keeps_user_bounds_witness :
    DataRange2D.low
        (DataRange2D.refresh (DataRange2D.set_bounds drange2auto (0, 0) (10, 20)))
      = DataRange2D.low (DataRange2D.set_bounds drange2auto (0, 0) (10, 20)) ∧
    DataRange2D.high
        (DataRange2D.refresh (DataRange2D.set_bounds drange2auto (0, 0) (10, 20)))
      = DataRange2D.high (DataRange2D.set_bounds drange2auto (0, 0) (10, 20)) :=
  refresh_keeps_user_bounds (DataRange2D.set_bounds drange2auto (0, 0) (10, 20))
    (by decide) (by decide) (by decide) (by decide)

/-- compress on the pointwise image of a predicate is filter. -/
theorem compress_map_eq_filter {α : Type} (f : α → Bool) (l : List α) :
    compress (l.map f) l = l.filter f := by
  induction l with
  | nil => rfl
  | cons a l ih =>
      simp only [List.map_cons, compress, List.filter_cons]
      cases hf : f a <;> simp [hf, ih]

/-- C5: the mask marks exactly the points inside the rectangle spanned by
low and high, and clip_data returns exactly the points whose mask entry is
true, in their original order (that is, the filter of the containment
predicate). -/
theorem mask_and_clip_data (r : DataRange2D) (data : List (ℚ × ℚ)) :
    (DataRange2D.mask_data r data).length = data.length ∧
    (∀ i (h : i < data.length) (h2 : i < (DataRange2D.mask_data r data).length),
      (DataRange2D.mask_data r data).get ⟨i, h2⟩ = true ↔
        ((DataRange2D.low r).1 ≤ (data.get ⟨i, h⟩).1 ∧
         (data.get ⟨i, h⟩).1 ≤ (DataRange2D.high r).1 ∧
         (DataRange2D.low r).2 ≤ (data.get ⟨i, h⟩).2 ∧
         (data.get ⟨i, h⟩).2 ≤ (DataRange2D.high r).2)) ∧
    DataRange2D.clip_data r data = data.filter (fun p =>
      decide ((DataRange2D.low r).1 ≤ p.1 ∧ p.1 ≤ (DataRange2D.high r).1 ∧
              (DataRange2D.low r).2 ≤ p.2 ∧ p.2 ≤ (DataRange2D.high r).2)) := by
  refine ⟨by simp [DataRange2D.mask_data], fun i h h2 => ?_, ?_⟩
  · simp [DataRange2D.mask_data, and_assoc]
  · rw [DataRange2D.clip_data, DataRange2D.mask_data, compress_map_eq_filter]
    refine List.filter_congr fun p _ => ?_
    by_cases h1 : (DataRange2D.low r).1 ≤ p.1 <;>
      by_cases h2 : p.1 ≤ (DataRange2D.high r).1 <;>
      by_cases h3 : (DataRange2D.low r).2 ≤ p.2 <;>
      by_cases h4 : p.2 ≤ (DataRange2D.high r).2 <;>
      simp [h1, h2, h3, h4]

/-- Witness for C5: the mask entry of the in-range point (1, 2) of drange2
is true, and clipping keeps exactly the in-range points. -/
theorem mask_and_clip_data_witness :
    ((DataRange2D.mask_data drange2 [((1 : ℚ), (2 : ℚ)), (20, 2)]).get
        ⟨0, by decide⟩ = true ↔
      ((DataRange2D.low drange2).1 ≤ (1 : ℚ) ∧ (1 : ℚ) ≤ (DataRange2D.high drange2).1 ∧
       (DataRange2D.low drange2).2 ≤ (2 : ℚ) ∧ (2 : ℚ) ≤ (DataRange2D.high drange2).2)) ∧
    DataRange2D.clip_data drange2 [((1 : ℚ), (2 : ℚ)), (20, 2)]
      = [((1 : ℚ), (2 : ℚ)), (20, 2)].filter (fun p =>
          decide ((DataRange2D.low drange2).1 ≤ p.1 ∧
                  p.1 ≤ (DataRange2D.high drange2).1 ∧
                  (DataRange2D.low drange2).2 ≤ p.2 ∧
                  p.2 ≤ (DataRange2D.high drange2).2)) :=
  ⟨(mask_and_clip_data drange2 [((1 : ℚ), (2 : ℚ)), (20, 2)]).2.1 0
      (by decide) (by decide),
   (mask_and_clip_data drange2 [((1 : ℚ), (2 : ℚ)), (20, 2)]).2.2⟩

/-- Projection of a removeSource fold onto the x 1-D sources. -/
theorem foldl_removeSource_xsources (l : List ImageSource) :
    ∀ r : DataRange2D, (l.foldl DataRange2D.removeSource r)._xrange.sources
      = l.foldl (fun acc s => acc.erase s._xdata) r._xrange.sources := by
  induction l with
  | nil => intro r; rfl
  | cons a l ih =>
      intro r
      simp only [List.foldl_cons, ih, DataRange2D.removeSource, DataRange1D.remove]

/-- Projection of a removeSource fold onto the y 1-D sources. -/
theorem foldl_removeSource_ysources (l : List ImageSource) :
    ∀ r : DataRange2D, (l.foldl DataRange2D.removeSource r)._yrange.sources
      = l.foldl (fun acc s => acc.erase s._ydata) r._yrange.sources := by
  induction l with
  | nil => intro r; rfl
  | cons a l ih =>
      intro r
      simp only [List.foldl_cons, ih, DataRange2D.removeSource, DataRange1D.remove]

/-- Projection of a removeSource fold onto the listener list. -/
theorem foldl_removeSource_listeners (l : List ImageSource) :
    ∀ r : DataRange2D, (l.foldl DataRange2D.removeSource r).listeners
      = l.foldl (fun acc s => acc.erase s) r.listeners := by
  induction l with
  | nil => intro r; rfl
  | cons a l ih =>
      intro r
      simp only [List.foldl_cons, ih, DataRange2D.removeSource]

/-- removeSource folds do not change the actual bound values. -/
theorem foldl_removeSource_bounds (l : List ImageSource) :
    ∀ r : DataRange2D,
      (l.foldl DataRange2D.removeSource r)._xrange.low = r._xrange.low ∧
      (l.foldl DataRange2D.removeSource r)._xrange.high = r._xrange.high ∧
      (l.foldl DataRange2D.removeSource r)._yrange.low = r._yrange.low ∧
      (l.foldl DataRange2D.removeSource r)._yrange.high = r._yrange.high := by
  induction l with
  | nil => intro r; exact ⟨rfl, rfl, rfl, rfl⟩
  | cons a l ih =>
      intro r
      simpa only [List.foldl_cons, DataRange2D.removeSource, DataRange1D.remove]
        using ih (DataRange2D.removeSource r a)

/-- Projection of an addSource fold onto the x 1-D sources. -/
theorem foldl_addSource_xsources (l : List ImageSource) :
    ∀ r : DataRange2D, (l.foldl DataRange2D.addSource r)._xrange.sources
      = r._xrange.sources ++ l.map (fun s => s._xdata) := by
  induction l with
  | nil => intro r; simp
  | cons a l ih =>
      intro r
      simp [List.foldl_cons, ih, DataRange2D.addSource, DataRange1D.add]

/-- Projection of an addSource fold onto the y 1-D sources. -/
theorem foldl_addSource_ysources (l : List ImageSource) :
    ∀ r : DataRange2D, (l.foldl DataRange2D.addSource r)._yrange.sources
      = r._yrange.sources ++ l.map (fun s => s._ydata) := by
  induction l with
  | nil => intro r; simp
  | cons a l ih =>
      intro r
      simp [List.foldl_cons, ih, DataRange2D.addSource, DataRange1D.add]

/-- Projection of an addSource fold onto the listener list. -/
theorem foldl_addSource_listeners (l : List ImageSource) :
    ∀ r : DataRange2D, (l.foldl DataRange2D.addSource r).listeners
      = r.listeners ++ l := by
  induction l with
  | nil => intro r; simp
  | cons a l ih =>
      intro r
      simp [List.foldl_cons, ih, DataRange2D.addSource]

/-- addSource folds do not change the actual bound values. -/
theorem foldl_addSource_bounds (l : List ImageSource) :
    ∀ r : DataRange2D,
      (l.foldl DataRange2D.addSource r)._xrange.low = r._xrange.low ∧
      (l.foldl DataRange2D.addSource r)._xrange.high = r._xrange.high ∧
      (l.foldl DataRange2D.addSource r)._yrange.low = r._yrange.low ∧
      (l.foldl DataRange2D.addSource r)._yrange.high = r._yrange.high := by
  induction l with
  | nil => intro r; exact ⟨rfl, rfl, rfl, rfl⟩
  | cons a l ih =>
      intro r
      simpa only [List.foldl_cons, DataRange2D.addSource, DataRange1D.add]
        using ih (DataRange2D.addSource r a)

/-- C6: both source-list event handlers agree; the handler refreshes the
range first (the resulting bound values are those of the refreshed range),
every removed source has its _xdata and _ydata removed from the x and y
1-D ranges and its listener detached, and every added source has its
_xdata and _ydata added to the 1-D ranges and its listener attached. -/
theorem sources_events_effect (r : DataRange2D) (ev : ListEvent) :
    DataRange2D._sources_items_changed r ev
      = DataRange2D._sources_changed r ev.removed ev.added ∧
    (DataRange2D._sources_items_changed r ev)._xrange.sources
      = (ev.removed.foldl (fun acc s => acc.erase s._xdata) r._xrange.sources)
          ++ ev.added.map (fun s => s._xdata) ∧
    (DataRange2D._sources_items_changed r ev)._yrange.sources
      = (ev.removed.foldl (fun acc s => acc.erase s._ydata) r._yrange.sources)
          ++ ev.added.map (fun s => s._ydata) ∧
    (DataRange2D._sources_items_changed r ev).listeners
      = (ev.removed.foldl (fun acc s => acc.erase s) r.listeners) ++ ev.added ∧
    DataRange2D.low (DataRange2D._sources_items_changed r ev)
      = DataRange2D.low (DataRange2D.refresh r) ∧
    DataRange2D.high (DataRange2D._sources_items_changed r ev)
      = DataRange2D.high (DataRange2D.refresh r) := by
  have h1d : ∀ q : DataRange1D, q.refresh.sources = q.sources := by
    intro q
    unfold DataRange1D.refresh
    split
    · rfl
    · split <;> rfl
  have hrx : (DataRange2D.refresh r)._xrange.sources = r._xrange.sources := by
    unfold DataRange2D.refresh DataRange2D._refresh_bounds
    split
    · rfl
    · exact h1d r._xrange
  have hry : (DataRange2D.refresh r)._yrange.sources = r._yrange.sources := by
    unfold DataRange2D.refresh DataRange2D._refresh_bounds
    split
    · rfl
    · exact h1d r._yrange
  have hrl : (DataRange2D.refresh r).listeners = r.listeners := by
    unfold DataRange2D.refresh DataRange2D._refresh_bounds
    split <;> rfl
  refine ⟨rfl, ?_, ?_, ?_, ?_, ?_⟩
  · rw [DataRange2D._sources_items_changed, foldl_addSource_xsources,
      foldl_removeSource_xsources, hrx]
  · rw [DataRange2D._sources_items_changed, foldl_addSource_ysources,
      foldl_removeSource_ysources, hry]
  · rw [DataRange2D._sources_items_changed, foldl_addSource_listeners,
      foldl_removeSource_listeners, hrl]
  · rw [DataRange2D._sources_items_changed, DataRange2D.low,
      (foldl_addSource_bounds _ _).1,
      (foldl_removeSource_bounds _ _).1,
      (foldl_addSource_bounds _ _).2.2.1,
      (foldl_removeSource_bounds _ _).2.2.1]
    rfl
  · rw [DataRange2D._sources_items_changed, DataRange2D.high,
      (foldl_addSource_bounds _ _).2.1,
      (foldl_removeSource_bounds _ _).2.1,
      (foldl_addSource_bounds _ _).2.2.2,
      (foldl_removeSource_bounds _ _).2.2.2]
    rfl
namespace BetterZoom

/-- The guard is false exactly when the factor lies within the axis limits. -/
theorem zoom_limit_reached_false_iff (t : Tool) (v : ℚ) (ax : ScreenAxis) :
    _zoom_limit_reached t v ax = false ↔ within_limits t ax v := by
  cases ax <;> unfold _zoom_limit_reached within_limits <;> split <;>
    simp_all [ge_iff_le, and_comm]

/-- _do_zoom installs the new factors and leaves the orientation and the
zoom-limit traits unchanged. -/
theorem do_zoom_fields (t : Tool) (ni nv : ℚ) :
    (_do_zoom t ni nv)._index_factor = ni ∧
    (_do_zoom t ni nv)._value_factor = nv ∧
    (_do_zoom t ni nv).component.orientation = t.component.orientation ∧
    (_do_zoom t ni nv).x_max_zoom_factor = t.x_max_zoom_factor ∧
    (_do_zoom t ni nv).x_min_zoom_factor = t.x_min_zoom_factor ∧
    (_do_zoom t ni nv).y_max_zoom_factor = t.y_max_zoom_factor ∧
    (_do_zoom t ni nv).y_min_zoom_factor = t.y_min_zoom_factor := by
  unfold _do_zoom _append_state applyState applySimple
  split <;> simp [apply_ite PlotComponent.orientation]

/-- Each zoom operation either hits its guard and returns the tool
unchanged, or performs _do_zoom with its prospective factors. -/
theorem applyZoomOp_eq (t : Tool) (op : ZoomOp) (f : ℚ) :
    applyZoomOp t op f =
      if zoomOpLimitFails t op f then t
      else _do_zoom t (new_factors t op f).1 (new_factors t op f).2 := by
  cases op <;> cases ho : t.component.orientation <;>
    simp [applyZoomOp, zoom_in, zoom_out, zoom_in_x, zoom_out_x, zoom_in_y,
      zoom_out_y, zoomOpLimitFails, new_factors, ho] <;>
    split_ifs <;> simp_all

end BetterZoom
namespace BetterZoom

/-- A guard that fails bounds the prospective factors of the axes it
checks; the unchecked factors are unchanged and bounded by hypothesis. -/
theorem guard_false_factors_bounded (t : Tool) (op : ZoomOp) (f : ℚ)
    (hg : zoomOpLimitFails t op f = false) (h : factors_in_bounds t) :
    within_limits t (index_axis t) (new_factors t op f).1 ∧
    within_limits t (value_axis t) (new_factors t op f).2 := by
  obtain ⟨h1, h2⟩ := h
  cases op <;> cases ho : t.component.orientation <;>
    simp_all [zoomOpLimitFails, new_factors, index_axis, value_axis, ho,
      Bool.or_eq_false_iff, zoom_limit_reached_false_iff]

/-- A single zoom operation preserves the in-bounds invariant. -/
theorem zoom_step_bounds (t : Tool) (op : ZoomOp) (f : ℚ)
    (h : factors_in_bounds t) :
    factors_in_bounds (applyZoomOp t op f) := by
  rw [applyZoomOp_eq]
  split
  · exact h
  · rename_i hg
    have hg' : zoomOpLimitFails t op f = false := by
      simpa using hg
    obtain ⟨hfi, hfv, hor, hxmax, hxmin, hymax, hymin⟩ :=
      do_zoom_fields t (new_factors t op f).1 (new_factors t op f).2
    obtain ⟨hb1, hb2⟩ := guard_false_factors_bounded t op f hg' h
    constructor
    · cases hax : index_axis t <;>
        simp_all [factors_in_bounds, index_axis, within_limits]
    · cases hax : value_axis t <;>
        simp_all [factors_in_bounds, index_axis, value_axis, within_limits]

/-- Any sequence of zoom operations preserves the in-bounds invariant. -/
theorem zoom_seq_bounds (ops : List (ZoomOp × ℚ)) :
    ∀ t : Tool, factors_in_bounds t → factors_in_bounds (applyZoomSeq t ops) := by
  induction ops with
  | nil => intro t h; exact h
  | cons p ps ih =>
      intro t h
      have : applyZoomSeq t (p :: ps) = applyZoomSeq (applyZoomOp t p.1 p.2) ps := by
        simp [applyZoomSeq]
      rw [this]
      exact ih _ (zoom_step_bounds t p.1 p.2 h)

end BetterZoom

/-- C1 (amended): a zoom operation whose limit check fails returns the
tool entirely unchanged — zoom_in and zoom_out check the prospective
factors of both screen axes, while the single-axis operations check only
the prospective factor of the screen axis they act on (not the other,
unchanged, axis factor) — and, starting from per-axis factors within the
limits of their corresponding screen axes, any sequence of zoom
operations keeps both factors within those limits. -/
theorem zoom_limits_guard_and_invariant (t : Tool) (op : ZoomOp) (f : ℚ)
    (ops : List (ZoomOp × ℚ)) :
    (BetterZoom.zoomOpLimitFails t op f = true → BetterZoom.applyZoomOp t op f = t) ∧
    (BetterZoom.factors_in_bounds t →
      BetterZoom.factors_in_bounds (BetterZoom.applyZoomSeq t ops)) := by
  constructor
  · intro hg
    rw [BetterZoom.applyZoomOp_eq, if_pos hg]
  · exact fun h => BetterZoom.zoom_seq_bounds ops t h

/-- Witness for C1: on tool0 a zoom_in by 10^6 hits the x limit and leaves
the tool unchanged, and a concrete sequence of three zooms keeps the
factors within the limits. -/
theorem zoom_limits_guard_and_invariant_witness :
    BetterZoom.applyZoomOp tool0 ZoomOp.zoomIn 1000000 = tool0 ∧
    BetterZoom.factors_in_bounds (BetterZoom.applyZoomSeq tool0
      [(ZoomOp.zoomIn, 2), (ZoomOp.zoomOutY, 4), (ZoomOp.zoomInX, 0)]) :=
  ⟨(zoom_limits_guard_and_invariant tool0 ZoomOp.zoomIn 1000000 []).1
      (by simp [BetterZoom.zoomOpLimitFails, BetterZoom.new_factors,
        BetterZoom._zoom_limit_reached, tool0, mapper0] <;> norm_num),
   (zoom_limits_guard_and_invariant tool0 ZoomOp.zoomIn 2
      [(ZoomOp.zoomIn, 2), (ZoomOp.zoomOutY, 4), (ZoomOp.zoomInX, 0)]).2
      (by simp [BetterZoom.factors_in_bounds, BetterZoom.within_limits,
        BetterZoom.index_axis, BetterZoom.value_axis, tool0, mapper0] <;>
        norm_num)⟩

/-- C1 counterexample to the claim as stated: toolCex's prospective y-axis
factor for zoom_in_x (its unchanged value factor, 10) lies outside
[y_min_zoom_factor, y_max_zoom_factor] = [1/100000, 5], yet zoom_in_x
does not return unchanged: it changes _index_factor (from 1 to 2),
because zoom_in_x never checks the y screen axis. -/
theorem zoom_limits_claim_counterexample :
    ¬ BetterZoom.within_limits toolCex ScreenAxis.y
        (BetterZoom.new_factors toolCex ZoomOp.zoomInX 2).2 ∧
    (BetterZoom.applyZoomOp toolCex ZoomOp.zoomInX 2)._index_factor
      ≠ toolCex._index_factor := by
  constructor
  · simp [BetterZoom.within_limits, BetterZoom.new_factors, toolCex, tool0,
      mapper0] <;> norm_num
  · simp [BetterZoom.applyZoomOp, BetterZoom.zoom_in_x,
      BetterZoom._zoom_limit_reached, BetterZoom._do_zoom, BetterZoom.applyState,
      BetterZoom.applySimple, BetterZoom._append_state, toolCex, tool0,
      mapper0] <;> norm_num
namespace BetterZoom

/-- Zooming a mapper by a factor and then by its inverse restores it. -/
theorem zoom_in_mapper_cancel (m : Mapper) (a b : ℚ) (hab : a * b = 1) :
    _zoom_in_mapper (_zoom_in_mapper m a) b = m := by
  have ha : a ≠ 0 := left_ne_zero_of_mul_eq_one hab
  have hb' : b = a⁻¹ := eq_inv_of_mul_eq_one_right hab
  subst hb'
  obtain ⟨⟨lo, hi⟩, sl, sh⟩ := m
  simp only [_zoom_in_mapper, Mapper.mk.injEq, RangeBounds.mk.injEq]
  refine ⟨⟨?_, ?_⟩, trivial, trivial⟩ <;> field_simp <;> ring

/-- The quotient form of the cancellation used by state reverts. -/
theorem zoom_div_cancel (m : Mapper) (a b : ℚ) (ha : a ≠ 0) (hb : b ≠ 0) :
    _zoom_in_mapper (_zoom_in_mapper m (a / b)) (b / a) = m :=
  zoom_in_mapper_cancel m (a / b) (b / a) (by field_simp)

/-- Shifting a mapper by a difference and then by its negation restores it. -/
theorem shift_mapper_sub_cancel (m : Mapper) (a b : ℚ) :
    shift_mapper (shift_mapper m (a - b)) (b - a) = m := by
  obtain ⟨⟨lo, hi⟩, sl, sh⟩ := m
  simp only [shift_mapper, Mapper.mk.injEq, RangeBounds.mk.injEq]
  refine ⟨⟨?_, ?_⟩, trivial, trivial⟩ <;> ring

end BetterZoom
namespace BetterZoom

/-- Reverting a just-applied zoom state whose previous factors are the
tool's current ones restores the tool exactly. -/
theorem revert_apply_zoom (t : Tool) (pi pv ni nv : ℚ)
    (hfi : t._index_factor = pi) (hfv : t._value_factor = pv)
    (hpi : pi ≠ 0) (hpv : pv ≠ 0) (hni : ni ≠ 0) (hnv : nv ≠ 0) :
    revertSimple (applySimple t (SimpleState.zoomState (pi, pv) (ni, nv)))
      (SimpleState.zoomState (pi, pv) (ni, nv)) = t := by
  subst hfi hfv
  simp only [applySimple, revertSimple]
  rw [zoom_div_cancel _ _ _ hni hpi, zoom_div_cancel _ _ _ hnv hpv]

/-- Reverting a just-applied pan state restores the tool exactly. -/
theorem revert_apply_pan (t : Tool) (p n : ℚ × ℚ) :
    revertSimple (applySimple t (SimpleState.panState p n))
      (SimpleState.panState p n) = t := by
  cases ho : t.component.orientation <;>
    (simp [applySimple, revertSimple, ho, shift_mapper_sub_cancel]; rw [← ho])

/-- A pan state does not change the zoom factors. -/
theorem applySimple_pan_factors (t : Tool) (p n : ℚ × ℚ) :
    (applySimple t (SimpleState.panState p n))._index_factor = t._index_factor ∧
    (applySimple t (SimpleState.panState p n))._value_factor = t._value_factor :=
  ⟨rfl, rfl⟩

/-- Reverting the grouped pan-and-zoom state used by zoom-to-mouse
restores the tool exactly. -/
theorem revert_apply_grouped (t : Tool) (p n : ℚ × ℚ) (pi pv ni nv : ℚ)
    (hfi : t._index_factor = pi) (hfv : t._value_factor = pv)
    (hpi : pi ≠ 0) (hpv : pv ≠ 0) (hni : ni ≠ 0) (hnv : nv ≠ 0) :
    revertState
      (applyState t (ToolState.grouped
        [SimpleState.panState p n, SimpleState.zoomState (pi, pv) (ni, nv)]))
      (ToolState.grouped
        [SimpleState.panState p n, SimpleState.zoomState (pi, pv) (ni, nv)]) = t := by
  simp only [applyState, revertState, List.reverse_cons, List.reverse_nil,
    List.nil_append, List.cons_append, List.foldl_cons, List.foldl_nil]
  rw [revert_apply_zoom (applySimple t (SimpleState.panState p n)) pi pv ni nv
      (by rw [(applySimple_pan_factors t p n).1, hfi])
      (by rw [(applySimple_pan_factors t p n).2, hfv]) hpi hpv hni hnv,
    revert_apply_pan]

end BetterZoom
namespace BetterZoom

/-- getD at the length of the prefix picks the appended element. -/
theorem getD_append_singleton {α : Type} (l : List α) (s d : α) :
    (l ++ [s]).getD l.length d = s := by
  simp [List.getD_append_right]

/-- applySimple commutes with overriding the history fields. -/
theorem applySimple_history (x : Tool) (h : List ToolState) (i : Nat)
    (s : SimpleState) :
    applySimple { x with _history := h, _history_index := i } s
      = { applySimple x s with _history := h, _history_index := i } := by
  cases s <;> rfl

/-- revertSimple commutes with overriding the history fields. -/
theorem revertSimple_history (x : Tool) (h : List ToolState) (i : Nat)
    (s : SimpleState) :
    revertSimple { x with _history := h, _history_index := i } s
      = { revertSimple x s with _history := h, _history_index := i } := by
  cases s <;> rfl

/-- Folds of applySimple commute with overriding the history fields. -/
theorem foldl_applySimple_history (l : List SimpleState) :
    ∀ (x : Tool) (h : List ToolState) (i : Nat),
      l.foldl applySimple { x with _history := h, _history_index := i }
        = { l.foldl applySimple x with _history := h, _history_index := i } := by
  induction l with
  | nil => intros; rfl
  | cons a l ih =>
      intro x h i
      rw [List.foldl_cons, applySimple_history, ih, List.foldl_cons]

/-- Folds of revertSimple commute with overriding the history fields. -/
theorem foldl_revertSimple_history (l : List SimpleState) :
    ∀ (x : Tool) (h : List ToolState) (i : Nat),
      l.foldl revertSimple { x with _history := h, _history_index := i }
        = { l.foldl revertSimple x with _history := h, _history_index := i } := by
  induction l with
  | nil => intros; rfl
  | cons a l ih =>
      intro x h i
      rw [List.foldl_cons, revertSimple_history, ih, List.foldl_cons]

/-- applyState commutes with overriding the history fields. -/
theorem applyState_history (x : Tool) (h : List ToolState) (i : Nat)
    (S : ToolState) :
    applyState { x with _history := h, _history_index := i } S
      = { applyState x S with _history := h, _history_index := i } := by
  cases S with
  | simple s => exact applySimple_history x h i s
  | grouped l => exact foldl_applySimple_history l x h i

/-- revertState commutes with overriding the history fields. -/
theorem revertState_history (x : Tool) (h : List ToolState) (i : Nat)
    (S : ToolState) :
    revertState { x with _history := h, _history_index := i } S
      = { revertState x S with _history := h, _history_index := i } := by
  cases S with
  | simple s => exact revertSimple_history x h i s
  | grouped l => exact foldl_revertSimple_history l.reverse x h i

/-- Applying a state does not touch the history fields. -/
theorem applyState_preserves_history (x : Tool) (S : ToolState) :
    (applyState x S)._history = x._history ∧
    (applyState x S)._history_index = x._history_index := by
  cases S with
  | simple s => cases s <;> exact ⟨rfl, rfl⟩
  | grouped l =>
      induction l generalizing x with
      | nil => exact ⟨rfl, rfl⟩
      | cons a l ih =>
          have step : (applySimple x a)._history = x._history ∧
              (applySimple x a)._history_index = x._history_index := by
            cases a <;> exact ⟨rfl, rfl⟩
          have := ih (applySimple x a)
          simp only [applyState, List.foldl_cons] at this ⊢
          exact ⟨this.1.trans step.1, this.2.trans step.2⟩

/-- The ToolHistoryMixin round trip: appending an applied state whose
revert undoes it, then going back and forward, restores and reapplies
exactly that state. -/
theorem history_round_trip_core (t : Tool) (S : ToolState)
    (hidx : t._history_index + 1 = t._history.length)
    (hrev : revertState (applyState t S) S = t) :
    ((_prev_state (_append_state (applyState t S) S))._index_factor
        = t._index_factor ∧
     (_prev_state (_append_state (applyState t S) S))._value_factor
        = t._value_factor ∧
     (_prev_state (_append_state (applyState t S) S)).component
        = t.component) ∧
    _next_state (_prev_state (_append_state (applyState t S) S))
      = _append_state (applyState t S) S := by
  have hpos : 0 < t._history.length := by omega
  have e1 : t._history.length - 1 + 1 = t._history.length := by omega
  have ht1 : _append_state (applyState t S) S
      = { applyState t S with
          _history := t._history ++ [S],
          _history_index := t._history.length } := by
    unfold _append_state
    rw [(applyState_preserves_history t S).1, (applyState_preserves_history t S).2,
      hidx, List.take_length]
    simp
  have hprev : _prev_state (_append_state (applyState t S) S)
      = { t with _history := t._history ++ [S] } := by
    rw [ht1]
    unfold _prev_state
    simp only [hpos, if_true]
    unfold _prev_state_pressed
    simp only [e1, getD_append_singleton]
    rw [revertState_history, hrev]
    have e2 : t._history.length - 1 = t._history_index := by omega
    rw [e2]
  refine ⟨⟨?_, ?_, ?_⟩, ?_⟩
  · rw [hprev]
  · rw [hprev]
  · rw [hprev]
  · rw [hprev, ht1]
    unfold _next_state
    have hlt : t._history_index + 1 < t._history.length + 1 := by omega
    simp only [List.length_append, List.length_cons, List.length_nil, hlt, if_true]
    unfold _next_state_pressed _current_state
    simp only [hidx, getD_append_singleton]
    rw [applyState_history]

end BetterZoom
namespace BetterZoom

/-- The _do_zoom round trip: after a zoom that appends its state, the
previous-state action restores the factors and the component (hence the
mapper ranges), and the next-state action reapplies the zoom exactly. -/
theorem do_zoom_round_trip (t : Tool) (ni nv : ℚ)
    (hidx : t._history_index + 1 = t._history.length)
    (hpi : t._index_factor ≠ 0) (hpv : t._value_factor ≠ 0)
    (hni : ni ≠ 0) (hnv : nv ≠ 0) :
    ((_prev_state (_do_zoom t ni nv))._index_factor = t._index_factor ∧
     (_prev_state (_do_zoom t ni nv))._value_factor = t._value_factor ∧
     (_prev_state (_do_zoom t ni nv)).component = t.component) ∧
    _next_state (_prev_state (_do_zoom t ni nv)) = _do_zoom t ni nv := by
  by_cases hzm : t.zoom_to_mouse = true
  · simp only [_do_zoom, hzm, if_true]
    exact history_round_trip_core t _ hidx
      (revert_apply_grouped t _ _ t._index_factor t._value_factor ni nv
        rfl rfl hpi hpv hni hnv)
  · simp only [_do_zoom, hzm, if_false, Bool.not_eq_true] at *
    simp only [_do_zoom, hzm, Bool.false_eq_true, if_false]
    have hrev : revertState
        (applyState t (ToolState.simple
          (SimpleState.zoomState (t._index_factor, t._value_factor) (ni, nv))))
        (ToolState.simple
          (SimpleState.zoomState (t._index_factor, t._value_factor) (ni, nv))) = t :=
      revert_apply_zoom t t._index_factor t._value_factor ni nv rfl rfl hpi hpv hni hnv
    exact history_round_trip_core t _ hidx hrev

/-- A quotient by q that is positive while its numerator is positive has
a positive denominator. -/
theorem denom_pos {v q : ℚ} (hv : 0 < v) (hq : 0 < v / q) : 0 < q := by
  rcases div_pos_iff.mp hq with ⟨_, h⟩ | ⟨h1, _⟩
  · exact h
  · linarith

/-- When the guard passes, the prospective factors are positive whenever
the minimum zoom factors and the current factors are. -/
theorem new_factors_pos (t : Tool) (op : ZoomOp) (f : ℚ)
    (hg : zoomOpLimitFails t op f = false)
    (hxmin : 0 < t.x_min_zoom_factor) (hymin : 0 < t.y_min_zoom_factor)
    (hpi : 0 < t._index_factor) (hpv : 0 < t._value_factor) :
    0 < (new_factors t op f).1 ∧ 0 < (new_factors t op f).2 := by
  cases op <;> cases ho : t.component.orientation <;>
    simp_all [zoomOpLimitFails, new_factors, Bool.or_eq_false_iff,
      zoom_limit_reached_false_iff, within_limits] <;>
    first
      | (constructor <;> linarith)
      | linarith
      | exact denom_pos hpi (by linarith)
      | exact denom_pos hpv (by linarith)

end BetterZoom

/-- C2: after any zoom operation that passes its limit check and appends
its state to the history (the tool starting in the well-formed position
at the end of its history, with positive minimum zoom factors and
positive current factors), the previous-state action restores
_index_factor, _value_factor and the component (hence all mapper ranges)
to their values before the zoom, and the next-state action then reapplies
the zoom exactly: zoom, back, forward is a round trip. -/
theorem zoom_history_round_trip (t : Tool) (op : ZoomOp) (f : ℚ)
    (hidx : t._history_index + 1 = t._history.length)
    (hpass : BetterZoom.zoomOpLimitFails t op f = false)
    (hxmin : 0 < t.x_min_zoom_factor) (hymin : 0 < t.y_min_zoom_factor)
    (hpi : 0 < t._index_factor) (hpv : 0 < t._value_factor) :
    ((BetterZoom._prev_state (BetterZoom.applyZoomOp t op f))._index_factor
        = t._index_factor ∧
     (BetterZoom._prev_state (BetterZoom.applyZoomOp t op f))._value_factor
        = t._value_factor ∧
     (BetterZoom._prev_state (BetterZoom.applyZoomOp t op f)).component
        = t.component) ∧
    BetterZoom._next_state (BetterZoom._prev_state (BetterZoom.applyZoomOp t op f))
      = BetterZoom.applyZoomOp t op f := by
  have hnf := BetterZoom.new_factors_pos t op f hpass hxmin hymin hpi hpv
  have happ : BetterZoom.applyZoomOp t op f
      = BetterZoom._do_zoom t (BetterZoom.new_factors t op f).1
          (BetterZoom.new_factors t op f).2 := by
    rw [BetterZoom.applyZoomOp_eq, hpass]
    rfl
  rw [happ]
  exact BetterZoom.do_zoom_round_trip t _ _ hidx (ne_of_gt hpi) (ne_of_gt hpv)
    (ne_of_gt hnf.1) (ne_of_gt hnf.2)

/-- Witness for C2: a zoom_in by 2 on tool0 followed by back then forward. -/
theorem zoom_history_round_trip_witness :
    ((BetterZoom._prev_state
        (BetterZoom.applyZoomOp tool0 ZoomOp.zoomIn 2))._index_factor
        = tool0._index_factor ∧
     (BetterZoom._prev_state
        (BetterZoom.applyZoomOp tool0 ZoomOp.zoomIn 2))._value_factor
        = tool0._value_factor ∧
     (BetterZoom._prev_state
        (BetterZoom.applyZoomOp tool0 ZoomOp.zoomIn 2)).component
        = tool0.component) ∧
    BetterZoom._next_state
        (BetterZoom._prev_state (BetterZoom.applyZoomOp tool0 ZoomOp.zoomIn 2))
      = BetterZoom.applyZoomOp tool0 ZoomOp.zoomIn 2 :=
  zoom_history_round_trip tool0 ZoomOp.zoomIn 2 rfl
    (by simp [BetterZoom.zoomOpLimitFails, BetterZoom.new_factors,
      BetterZoom._zoom_limit_reached, tool0, mapper0] <;> norm_num)
    (by norm_num [tool0]) (by norm_num [tool0])
    (by norm_num [tool0]) (by norm_num [tool0])

/-- The norm of (1, w) scaled to nominal length s3 is s3. -/
theorem norm2_scaled_perp (w s3 : ℝ) (hs3 : 0 ≤ s3) :
    Real.sqrt ((s3 / Real.sqrt (1 + w ^ 2) * 1) ^ 2
        + (s3 / Real.sqrt (1 + w ^ 2) * w) ^ 2) = s3 := by
  have hbase : (0 : ℝ) < 1 + w ^ 2 := by positivity
  have hroot : (0 : ℝ) < Real.sqrt (1 + w ^ 2) := Real.sqrt_pos.mpr hbase
  have hcnn : 0 ≤ s3 / Real.sqrt (1 + w ^ 2) := div_nonneg hs3 (le_of_lt hroot)
  rw [show (s3 / Real.sqrt (1 + w ^ 2) * 1) ^ 2
        + (s3 / Real.sqrt (1 + w ^ 2) * w) ^ 2
      = (s3 / Real.sqrt (1 + w ^ 2)) ^ 2 * (1 + w ^ 2) by ring,
    Real.sqrt_mul (sq_nonneg _), Real.sqrt_sq_eq_abs, abs_of_nonneg hcnn,
    div_mul_cancel₀ _ (ne_of_gt hroot)]

/-- C10: the perpendicular vector computed by draw_arrow is orthogonal to
the unit direction vector from pt1 to pt2 and has norm 0.3 *
arrowhead_size in exact arithmetic, and the two arrowhead base points are
symmetric about the shaft: their midpoint is the point at distance
arrowhead_size behind the (offset) tip along the shaft, and they differ by
twice the perpendicular vector. -/
theorem draw_arrow_perp_geometry (pt1 pt2 : ℝ × ℝ) (s o1 o2 : ℝ)
    (hne : pt1 ≠ pt2) (hs : 0 ≤ s) :
    (perp_vec pt1 pt2 s).1 * (unit_vec pt1 pt2).1
      + (perp_vec pt1 pt2 s).2 * (unit_vec pt1 pt2).2 = 0 ∧
    norm2 (perp_vec pt1 pt2 s) = 0.3 * s ∧
    ((draw_arrow pt1 pt2 s o1 o2).arrowhead_l.1
        + (draw_arrow pt1 pt2 s o1 o2).arrowhead_r.1
      = 2 * ((draw_arrow pt1 pt2 s o1 o2).pt2.1 - s * (unit_vec pt1 pt2).1) ∧
     (draw_arrow pt1 pt2 s o1 o2).arrowhead_l.2
        + (draw_arrow pt1 pt2 s o1 o2).arrowhead_r.2
      = 2 * ((draw_arrow pt1 pt2 s o1 o2).pt2.2 - s * (unit_vec pt1 pt2).2)) ∧
    ((draw_arrow pt1 pt2 s o1 o2).arrowhead_l.1
        - (draw_arrow pt1 pt2 s o1 o2).arrowhead_r.1
      = -(2 * (perp_vec pt1 pt2 s).1) ∧
     (draw_arrow pt1 pt2 s o1 o2).arrowhead_l.2
        - (draw_arrow pt1 pt2 s o1 o2).arrowhead_r.2
      = -(2 * (perp_vec pt1 pt2 s).2)) := by
  have hs3 : (0 : ℝ) ≤ 0.3 * s := by positivity
  refine ⟨?_, ?_, ?_, ?_⟩
  · unfold perp_vec
    by_cases h1 : (unit_vec pt1 pt2).1 = 0
    · rw [if_pos h1, h1]
      ring
    · rw [if_neg h1]
      by_cases h2 : (unit_vec pt1 pt2).2 = 0
      · rw [if_pos h2, h2]
        ring
      · rw [if_neg h2]
        dsimp only
        have hp : -1 / ((unit_vec pt1 pt2).2 / (unit_vec pt1 pt2).1)
            = -((unit_vec pt1 pt2).1 / (unit_vec pt1 pt2).2) := by
          field_simp
        rw [hp]
        have hmc : (unit_vec pt1 pt2).1 / (unit_vec pt1 pt2).2 * (unit_vec pt1 pt2).2
            = (unit_vec pt1 pt2).1 := div_mul_cancel₀ _ h2
        linear_combination
          (-(0.3 * s
            / norm2 (1, -((unit_vec pt1 pt2).1 / (unit_vec pt1 pt2).2)))) * hmc
  · unfold perp_vec
    by_cases h1 : (unit_vec pt1 pt2).1 = 0
    · rw [if_pos h1]
      unfold norm2
      simp only
      rw [show (0.3 * s) ^ 2 + (0 : ℝ) ^ 2 = (0.3 * s) ^ 2 by ring,
        Real.sqrt_sq hs3]
    · rw [if_neg h1]
      by_cases h2 : (unit_vec pt1 pt2).2 = 0
      · rw [if_pos h2]
        unfold norm2
        simp only
        rw [show (0 : ℝ) ^ 2 + (0.3 * s) ^ 2 = (0.3 * s) ^ 2 by ring,
          Real.sqrt_sq hs3]
      · rw [if_neg h2]
        dsimp only
        unfold norm2
        simp only [one_pow]
        exact norm2_scaled_perp
          (-1 / ((unit_vec pt1 pt2).2 / (unit_vec pt1 pt2).1)) (0.3 * s) hs3
  · constructor <;> (unfold draw_arrow; ring)
  · constructor <;> (unfold draw_arrow; ring)

/-- Witness for C10 at pt1 = (0, 0), pt2 = (3, 4), arrowhead size 10 and
offsets 1 and 2. -/
theorem draw_arrow_perp_geometry_witness :
    (perp_vec (0, 0) (3, 4) 10).1 * (unit_vec (0, 0) (3, 4)).1
      + (perp_vec (0, 0) (3, 4) 10).2 * (unit_vec (0, 0) (3, 4)).2 = 0 ∧
    norm2 (perp_vec (0, 0) (3, 4) 10) = 0.3 * 10 ∧
    ((draw_arrow (0, 0) (3, 4) 10 1 2).arrowhead_l.1
        + (draw_arrow (0, 0) (3, 4) 10 1 2).arrowhead_r.1
      = 2 * ((draw_arrow (0, 0) (3, 4) 10 1 2).pt2.1
          - 10 * (unit_vec (0, 0) (3, 4)).1) ∧
     (draw_arrow (0, 0) (3, 4) 10 1 2).arrowhead_l.2
        + (draw_arrow (0, 0) (3, 4) 10 1 2).arrowhead_r.2
      = 2 * ((draw_arrow (0, 0) (3, 4) 10 1 2).pt2.2
          - 10 * (unit_vec (0, 0) (3, 4)).2)) ∧
    ((draw_arrow (0, 0) (3, 4) 10 1 2).arrowhead_l.1
        - (draw_arrow (0, 0) (3, 4) 10 1 2).arrowhead_r.1
      = -(2 * (perp_vec (0, 0) (3, 4) 10).1) ∧
     (draw_arrow (0, 0) (3, 4) 10 1 2).arrowhead_l.2
        - (draw_arrow (0, 0) (3, 4) 10 1 2).arrowhead_r.2
      = -(2 * (perp_vec (0, 0) (3, 4) 10).2)) :=
  draw_arrow_perp_geometry (0, 0) (3, 4) 10 1 2
    (by simp [Prod.ext_iff]) (by norm_num)
